import Mathlib

/-!
# Device context guard and force-atlas2 argument decoding

A shallow embedding of two pieces of the bindings:

* `Device::call_in_context` (modules/cuda/src/cuda/device.hpp), the guard that
  makes a device the active one around a unit of work and puts the previous
  device back afterwards;
* the argument decoding of `Graph::force_atlas2`
  (modules/cugraph/src/layout/force_atlas2.cpp).

The CUDA runtime is a state passed explicitly.  C++ exceptions are values of
`Thrown` carried in `Except`.  Every runtime call the guard issues is recorded
in a trace, so that statements about which calls were issued, and in which
order, can be made.
-/

namespace nv

/-! ## The CUDA runtime as seen by one host thread -/

/-- Status code of a CUDA runtime call; `0` is `cudaSuccess`. -/
abbrev cudaError_t := Nat

/-- The status of a call the runtime accepted. -/
def cudaSuccess : cudaError_t := 0

/-- Modelled from the spec: the compute runtime, an external service with the
calls `queryCurrentDevice() -> DeviceId | Error` and
`setActiveDevice(DeviceId) -> Ok | Error`.  `device` is the active-device
register of the calling thread, `getStatus` the status the next current-device
query reports, `setStatus id` the status the next activation of ordinal `id`
reports.  Work run between two calls may change all three. -/
structure Runtime where
  device : Int
  getStatus : cudaError_t
  setStatus : Int → cudaError_t

/-- Modelled from the spec: `cudaGetDevice(&device)`; reads the register and has
no side effect.  The value is meaningful only when the status is `cudaSuccess`. -/
def cudaGetDevice (rt : Runtime) : cudaError_t × Int :=
  (rt.getStatus, rt.device)

/-- Modelled from the spec: `cudaSetDevice(id)`; an accepted call moves the
register to `id`, the register being mutated only through accepted activation
calls, so a rejected call leaves the runtime as it was. -/
def cudaSetDevice (id : Int) (rt : Runtime) : cudaError_t × Runtime :=
  if rt.setStatus id = cudaSuccess then (cudaSuccess, { rt with device := id })
  else (rt.setStatus id, rt)

/-! ## C++ exceptions -/

/-- An object travelling as a C++ exception.  `cudaError st` is the error
`NODE_CUDA_TRY` raises for the status `st`; `exception tag` is any other
exception object; `exception_ptr e` is an object of type `std::exception_ptr`
that refers to the exception `e`. -/
inductive Thrown where
  | cudaError (status : cudaError_t)
  | exception (tag : Nat)
  | exception_ptr (referred : Thrown)
deriving DecidableEq, Repr

/-- Modelled from the spec: the macro `NODE_CUDA_TRY` of
cuda/utilities/error.hpp, which is not among the sources.  It evaluates a
runtime call and raises an error carrying the runtime's status when the call
did not succeed. -/
def NODE_CUDA_TRY (status : cudaError_t) : Except Thrown Unit :=
  if status = cudaSuccess then .ok () else .error (.cudaError status)

/-! ## The guard -/

/-- One step of the guard, as a probe on the runtime would see it.  `do_work d`
records that the bracketed work was started while the register held `d`. -/
inductive Event where
  | cudaGetDevice (status : cudaError_t)
  | cudaSetDevice (id : Int) (status : cudaError_t)
  | do_work (device : Int)
deriving DecidableEq, Repr

/-- The runtime accepted the call the event records. -/
def Event.succeeded : Event → Bool
  | .cudaGetDevice st => decide (st = cudaSuccess)
  | .cudaSetDevice _ st => decide (st = cudaSuccess)
  | .do_work _ => true

/-- The event is a `cudaSetDevice` call. -/
def Event.isSetDevice : Event → Bool
  | .cudaSetDevice _ _ => true
  | _ => false

/-- The event is the start of the bracketed work. -/
def Event.isWork : Event → Bool
  | .do_work _ => true
  | _ => false

/-- How a piece of guard code ended: normally or by an exception, the runtime
it left behind, and the events it issued, oldest first. -/
structure Run where
  result : Except Thrown Unit
  rt : Runtime
  trace : List Event

/-- The bracketed work: any operation on the runtime that returns or raises. -/
abbrev Work := Runtime → Except Thrown Unit × Runtime

/-- The class `Device`, reduced to the member the guard reads.  Device ids are
`int32_t` values that are only compared and passed on, never computed with. -/
structure Device where
  id_ : Int

/-- `Device::id()`. -/
def Device.id (this : Device) : Int := this.id_

/-- `Device::current_device_id()`:
`int32_t device; NODE_CUDA_TRY(cudaGetDevice(&device)); return device;` -/
def Device.current_device_id (rt : Runtime) : Except Thrown Int :=
  match NODE_CUDA_TRY (cudaGetDevice rt).1 with
  | .error e => .error e
  | .ok _ => .ok (cudaGetDevice rt).2

/-- The lambda `change_device` of `call_in_context`:
`if (cur_device_id != this->id()) NODE_CUDA_TRY(cudaSetDevice(id), this->Env());` -/
def Device.change_device (this : Device) (cur_device_id : Int) (id : Int)
    (rt : Runtime) : Run :=
  if cur_device_id ≠ this.id then
    { result := NODE_CUDA_TRY (cudaSetDevice id rt).1
      rt := (cudaSetDevice id rt).2
      trace := [.cudaSetDevice id (cudaSetDevice id rt).1] }
  else
    { result := .ok (), rt := rt, trace := [] }

/-- The `try` block of `call_in_context`:
`change_device(this->id()); do_work();` -/
def Device.try_block (this : Device) (cur_device_id : Int) (do_work : Work)
    (rt : Runtime) : Run :=
  let a := this.change_device cur_device_id this.id rt
  match a.result with
  | .error e => { result := .error e, rt := a.rt, trace := a.trace }
  | .ok _ =>
    { result := (do_work a.rt).1
      rt := (do_work a.rt).2
      trace := a.trace ++ [.do_work a.rt.device] }

/-- `Device::call_in_context`.  The current device is read outside the `try`
block.  An exception of the `try` block is caught by `catch (...)`, which calls
`change_device(cur_device_id)` and then executes
`throw std::current_exception();` (an exception raised by `change_device` inside
the handler leaves the function instead).  Without an exception,
`change_device(cur_device_id)` runs after the `try` block. -/
def Device.call_in_context (this : Device) (do_work : Work) (rt : Runtime) : Run :=
  match Device.current_device_id rt with
  | .error e =>
    { result := .error e, rt := rt, trace := [.cudaGetDevice (cudaGetDevice rt).1] }
  | .ok cur_device_id =>
    let query := Event.cudaGetDevice (cudaGetDevice rt).1
    let t := this.try_block cur_device_id do_work rt
    match t.result with
    | .error e =>
      let r := this.change_device cur_device_id cur_device_id t.rt
      match r.result with
      | .error e2 =>
        { result := .error e2, rt := r.rt, trace := query :: (t.trace ++ r.trace) }
      | .ok _ =>
        { result := .error (.exception_ptr e), rt := r.rt
          trace := query :: (t.trace ++ r.trace) }
    | .ok _ =>
      let r := this.change_device cur_device_id cur_device_id t.rt
      { result := r.result, rt := r.rt, trace := query :: (t.trace ++ r.trace) }

/-- Number of `cudaSetDevice` calls in a trace. -/
def setDeviceCalls (trace : List Event) : Nat :=
  (trace.filter Event.isSetDevice).length

/-- Number of times the bracketed work was started in a trace. -/
def workRuns (trace : List Event) : Nat :=
  (trace.filter Event.isWork).length

/-! ## JavaScript values and the N-API accessors used by `force_atlas2` -/

/-- A JavaScript value.  The payload of a number is a rational: every finite
double is one. -/
inductive Value where
  | undefined
  | null
  | boolean (b : Bool)
  | number (x : ℚ)
  | bigint (n : Int)
  | string (s : String)
  | object (props : List (String × Value))

/-- `Napi::Value::IsNumber()`. -/
def Value.IsNumber : Value → Bool
  | .number _ => true
  | _ => false

/-- `Napi::Value::IsBoolean()`. -/
def Value.IsBoolean : Value → Bool
  | .boolean _ => true
  | _ => false

/-- `Napi::Value::IsBigInt()`. -/
def Value.IsBigInt : Value → Bool
  | .bigint _ => true
  | _ => false

/-- `Napi::Value::IsObject()`. -/
def Value.IsObject : Value → Bool
  | .object _ => true
  | _ => false

/-- `Napi::Object::Has(key)`: the object has a property of that name. -/
def Value.Has (v : Value) (key : String) : Bool :=
  match v with
  | .object props => props.any (fun kv => kv.1 == key)
  | _ => false

/-- `Napi::Object::Get(key)`: the property's value, `undefined` when the object
has no property of that name. -/
def Value.Get (v : Value) (key : String) : Value :=
  match v with
  | .object props =>
    match props.find? (fun kv => kv.1 == key) with
    | some kv => kv.2
    | none => .undefined
  | _ => .undefined

/-- `Napi::Value::As<Napi::BigInt>()`, which the code calls only on a value for
which `IsBigInt()` holds: the integer the value holds. -/
def Value.bigintValue : Value → Int
  | .bigint n => n
  | _ => 0

/-- `Napi::Value::ToObject()`, which the code calls only on a value for which
`IsObject()` holds; there it returns the value. -/
def Value.ToObject (v : Value) : Value := v

/-- `Napi::Number::Int64Value()`: the number truncated towards zero, and
`INT64_MIN` for a number outside the range of `int64_t`. -/
def Int64Value (x : ℚ) : Int :=
  let t := Int.tdiv x.num x.den
  if -(2 : Int) ^ 63 ≤ t ∧ t < (2 : Int) ^ 63 then t else -(2 : Int) ^ 63

/-- `Napi::BigInt::Uint64Value(&lossless)`: the integer modulo `2^64`. -/
def Uint64Value (n : Int) : Nat := (n % (2 : Int) ^ 64).toNat

/-- Conversion of an `int64_t` to `size_t`, or its `reinterpret_cast` to a
pointer: the value modulo `2^64`. -/
def to_uint64 (n : Int) : Nat := (n % (2 : Int) ^ 64).toNat

/-- `sizeof(float)`. -/
def sizeof_float : Nat := 4

/-- Pointer arithmetic `p + n` on a `float*`: the address moves by `n` floats. -/
def float_ptr_add (p : Nat) (n : Nat) : Nat := (p + sizeof_float * n) % 2 ^ 64

/-- What `force_atlas2` uses and is not among the sources: the conversion
operators of `NapiToCPP` (`operator int()`, `operator bool()`,
`operator float()`, a C++ `float` being a rational), the coercion
`Napi::Value::ToNumber()` of a value that is not a number, the helper
`data_to_devicebuffer`, the object `DeviceBuffer::New` returns, and
`Graph::num_nodes()`. -/
structure Host where
  toInt : Value → Int
  toBool : Value → Bool
  toFloat : Value → ℚ
  coerceToNumber : Value → ℚ
  data_to_devicebuffer : Value → Value
  new_device_buffer : Value
  num_nodes : Nat

/-- `Napi::Value::ToNumber()`: a number is returned as it is. -/
def Value.ToNumber (h : Host) (v : Value) : ℚ :=
  match v with
  | .number x => x
  | w => h.coerceToNumber w

/-! ## `Graph::force_atlas2` -/

/-- `get_int`: `opt.IsNumber() ? opt.operator int() : default_val`. -/
def get_int (h : Host) (opt : Value) (default_val : Int) : Int :=
  if opt.IsNumber then h.toInt opt else default_val

/-- `get_bool`: `opt.IsBoolean() ? opt.operator bool() : default_val`. -/
def get_bool (h : Host) (opt : Value) (default_val : Bool) : Bool :=
  if opt.IsBoolean then h.toBool opt else default_val

/-- `get_float`: `opt.IsNumber() ? opt.operator float() : default_val`. -/
def get_float (h : Host) (opt : Value) (default_val : ℚ) : ℚ :=
  if opt.IsNumber then h.toFloat opt else default_val

/-- The lambda `is_device_memory`. -/
def is_device_memory (data : Value) : Bool :=
  data.IsObject && data.Has "ptr" && (data.Get "ptr").IsNumber

/-- The lambda `is_device_memory_wrapper`. -/
def is_device_memory_wrapper (data : Value) : Bool :=
  data.IsObject && data.Has "buffer" && (data.Get "buffer").IsObject &&
    is_device_memory (data.Get "buffer")

/-- The lambda `get_device_memory_ptr`, which captures `positions_offset` by
reference:
`reinterpret_cast<float*>(buffer.Get("ptr").ToNumber().Int64Value()) + positions_offset`. -/
def get_device_memory_ptr (h : Host) (positions_offset : Nat) (buffer : Value) : Nat :=
  float_ptr_add (to_uint64 (Int64Value ((buffer.Get "ptr").ToNumber h))) positions_offset

/-- The local variables `force_atlas2` holds once the `positions` option has
been decoded.  A null pointer is the address `0`. -/
structure Positions where
  positions_offset : Nat
  x_positions : Nat
  y_positions : Nat
  positions : Value
  positions_is_device_memory_wrapper : Bool

/-- The value `positions_offset` receives from a wrapper object. -/
def read_byteOffset (h : Host) (positions : Value) : Nat :=
  if positions.Has "byteOffset" then
    let val := positions.Get "byteOffset"
    if val.IsNumber then to_uint64 (Int64Value (val.ToNumber h))
    else if val.IsBigInt then Uint64Value val.bigintValue
    else 0
  else 0

/-- The `if (options.Has("positions") && ...) ... else ...` statement of
`force_atlas2`. -/
def decode_positions (h : Host) (options : Value) : Positions :=
  if options.Has "positions" && (options.Get "positions").IsObject then
    let positions := options.Get "positions"
    if is_device_memory_wrapper positions then
      let positions_offset := read_byteOffset h positions
      let buffer := (positions.Get "buffer").ToObject
      let x_positions := get_device_memory_ptr h positions_offset buffer
      { positions_offset := positions_offset
        x_positions := x_positions
        y_positions := float_ptr_add x_positions h.num_nodes
        positions := buffer
        positions_is_device_memory_wrapper := true }
    else
      let buffer :=
        if !is_device_memory positions then h.data_to_devicebuffer positions else positions
      let x_positions := get_device_memory_ptr h 0 buffer
      { positions_offset := 0
        x_positions := x_positions
        y_positions := float_ptr_add x_positions h.num_nodes
        positions := buffer
        positions_is_device_memory_wrapper := false }
  else
    { positions_offset := 0
      x_positions := 0
      y_positions := 0
      positions := h.new_device_buffer
      positions_is_device_memory_wrapper := false }

/-- The arguments `force_atlas2` passes to `cugraph::force_atlas2` after the
stream and the graph view, and the value it returns to JavaScript. -/
structure LayoutCall where
  pos : Nat
  max_iter : Int
  x_start : Nat
  y_start : Nat
  outbound_attraction : Bool
  lin_log_mode : Bool
  prevent_overlapping : Bool
  edge_weight_influence : ℚ
  jitter_tolerance : ℚ
  barnes_hut_optimize : Bool
  barnes_hut_theta : ℚ
  scaling_ratio : ℚ
  strong_gravity_mode : Bool
  gravity : ℚ
  verbose : Bool
  returned : Value

/-- `Graph::force_atlas2` up to the call of `cugraph::force_atlas2`. -/
def force_atlas2 (h : Host) (options : Value) : LayoutCall :=
  let max_iter := get_int h (options.Get "numIterations") 1
  let outbound_attraction := get_bool h (options.Get "outboundAttraction") true
  let lin_log_mode := get_bool h (options.Get "linLogMode") false
  let prevent_overlapping := get_bool h (options.Get "preventOverlap") false
  let edge_weight_influence := get_float h (options.Get "edgeWeightInfluence") 1
  let jitter_tolerance := get_float h (options.Get "jitterTolerance") 1
  let barnes_hut_theta := get_float h (options.Get "barnesHutTheta") (1 / 2)
  let scaling_ratio := get_float h (options.Get "scalingRatio") 2
  let strong_gravity_mode := get_bool h (options.Get "strongGravityMode") false
  let gravity := get_float h (options.Get "gravity") 1
  let verbose := get_bool h (options.Get "verbose") false
  let p := decode_positions h options
  { pos := get_device_memory_ptr h p.positions_offset p.positions
    max_iter := max_iter
    x_start := p.x_positions
    y_start := p.y_positions
    outbound_attraction := outbound_attraction
    lin_log_mode := lin_log_mode
    prevent_overlapping := prevent_overlapping
    edge_weight_influence := edge_weight_influence
    jitter_tolerance := jitter_tolerance
    barnes_hut_optimize := true
    barnes_hut_theta := barnes_hut_theta
    scaling_ratio := scaling_ratio
    strong_gravity_mode := strong_gravity_mode
    gravity := gravity
    verbose := verbose
    returned :=
      if p.positions_is_device_memory_wrapper then options.Get "positions" else p.positions }

/-! ## The option decoding as described -/

/-- A number a C++ `int` holds exactly: an integer from `-2^31` up to
`2^31 - 1`. -/
def isInt32 (x : ℚ) : Prop :=
  x.den = 1 ∧ -(2 : Int) ^ 31 ≤ x.num ∧ x.num < (2 : Int) ^ 31

/-- A number a C++ `float` holds exactly: `m * 2^e` with `|m| < 2^24` and
`-149 ≤ e ≤ 104`. -/
def isBinary32 (x : ℚ) : Prop :=
  ∃ m e : Int, m.natAbs < 2 ^ 24 ∧ -149 ≤ e ∧ e ≤ 104 ∧ x = m * (2 : ℚ) ^ e

/-- What is assumed of the conversion operators of `NapiToCPP`, whose code is not
among the sources: a value the C++ type holds exactly is converted to itself. -/
structure Host.Faithful (h : Host) : Prop where
  toBool_boolean : ∀ b : Bool, h.toBool (.boolean b) = b
  toInt_number : ∀ x : ℚ, isInt32 x → ((h.toInt (.number x) : Int) : ℚ) = x
  toFloat_number : ∀ x : ℚ, isBinary32 x → h.toFloat (.number x) = x

/-- A boolean option as the description words it: `decoded` is the option's own
value when the option is present and a boolean, the default otherwise. -/
def BoolOptionDecoded (props : List (String × Value)) (name : String)
    (default_val decoded : Bool) : Prop :=
  match props.lookup name with
  | some (.boolean b) => decoded = b
  | _ => decoded = default_val

/-- The option read as an `int`: when the option is present and a number,
`decoded` is that number converted by `operator int()`, which is the number
itself when an `int` holds it exactly; the default otherwise. -/
def IntOptionDecoded (h : Host) (props : List (String × Value)) (name : String)
    (default_val decoded : Int) : Prop :=
  match props.lookup name with
  | some (.number x) => decoded = h.toInt (.number x) ∧ (isInt32 x → (decoded : ℚ) = x)
  | _ => decoded = default_val

/-- An option read as a `float`: when the option is present and a number,
`decoded` is that number converted by `operator float()`, which is the number
itself when a `float` holds it exactly; the default otherwise. -/
def FloatOptionDecoded (h : Host) (props : List (String × Value)) (name : String)
    (default_val decoded : ℚ) : Prop :=
  match props.lookup name with
  | some (.number x) => decoded = h.toFloat (.number x) ∧ (isBinary32 x → decoded = x)
  | _ => decoded = default_val

/-! ## Sample inputs -/

/-- A runtime whose register holds `d` and which accepts every call. -/
def Runtime.accepting (d : Int) : Runtime :=
  { device := d, getStatus := cudaSuccess, setStatus := fun _ => cudaSuccess }

/-- A runtime whose register holds `d`, which answers the current-device query
and reports the status `reject id` for the activation of `id`. -/
def Runtime.rejecting (d : Int) (reject : Int → cudaError_t) : Runtime :=
  { device := d, getStatus := cudaSuccess, setStatus := reject }

/-- Work that raises `e` and leaves the runtime alone. -/
def Work.raising (e : Thrown) : Work := fun rt => (.error e, rt)

/-- Work that makes device `d` the active one and returns. -/
def Work.switching (d : Int) : Work := fun rt => (.ok (), (cudaSetDevice d rt).2)

/-- Work that returns, after which the runtime reports `st` for every
activation. -/
def Work.breaking (st : cudaError_t) : Work :=
  fun rt => (.ok (), { rt with setStatus := fun _ => st })

/-- Work that raises `e`, after which the runtime reports `st` for every
activation. -/
def Work.raisingAndBreaking (e : Thrown) (st : cudaError_t) : Work :=
  fun rt => (.error e, { rt with setStatus := fun _ => st })

/-- Conversion operators that truncate a number to an integer, keep a number as
a `float`, and read a boolean as it is; the other members are placeholders. -/
def Host.exact : Host :=
  { toInt := fun v => match v with
      | .number x => Int.tdiv x.num x.den
      | _ => 0
    toBool := fun v => match v with
      | .boolean b => b
      | _ => false
    toFloat := fun v => match v with
      | .number x => x
      | _ => 0
    coerceToNumber := fun _ => 0
    data_to_devicebuffer := fun v => v
    new_device_buffer := .object [("ptr", .number 0)]
    num_nodes := 0 }

/-- The options
`{ numIterations: 500, verbose: true, barnesHutTheta: 0.25, gravity: "strong" }`. -/
def sampleOptions : List (String × Value) :=
  [("numIterations", .number 500), ("verbose", .boolean true),
    ("barnesHutTheta", .number (1 / 4)), ("gravity", .string "strong")]

/-- The options `{ positions: { buffer: { ptr }, byteOffset } }`: a memory view
over a device buffer at address `ptr`. -/
def viewOptions (ptr byteOffset : Value) : Value :=
  .object [("positions",
    .object [("buffer", .object [("ptr", ptr)]), ("byteOffset", byteOffset)])]

/-- The options `{ positions: { buffer: { ptr } } }`: a memory view without a
`byteOffset` property. -/
def viewOptionsNoOffset (ptr : Value) : Value :=
  .object [("positions", .object [("buffer", .object [("ptr", ptr)])])]

end nv

namespace nv

/-! ## The four paths through `call_in_context` -/

theorem call_in_context_query_rejected (this : Device) (do_work : Work) (rt : Runtime)
    (hg : rt.getStatus ≠ cudaSuccess) :
    (this.call_in_context do_work rt).result = .error (.cudaError rt.getStatus) ∧
    (this.call_in_context do_work rt).rt = rt ∧
    (this.call_in_context do_work rt).trace = [.cudaGetDevice rt.getStatus] := by
  simp [Device.call_in_context, Device.current_device_id, NODE_CUDA_TRY, cudaGetDevice, hg]

theorem call_in_context_already_active (this : Device) (do_work : Work) (rt : Runtime)
    (hg : rt.getStatus = cudaSuccess) (hd : rt.device = this.id) :
    (this.call_in_context do_work rt).result =
      (match (do_work rt).1 with
        | .error e => .error (.exception_ptr e)
        | .ok u => .ok u) ∧
    (this.call_in_context do_work rt).rt = (do_work rt).2 ∧
    (this.call_in_context do_work rt).trace =
      [.cudaGetDevice cudaSuccess, .do_work this.id] := by
  simp only [Device.call_in_context, Device.current_device_id, NODE_CUDA_TRY, cudaGetDevice, hg,
    Device.try_block, Device.change_device, hd]
  simp
  cases h : (do_work rt).1 <;> simp [h, hd]

theorem call_in_context_activation_rejected (this : Device) (do_work : Work) (rt : Runtime)
    (hg : rt.getStatus = cudaSuccess) (hd : rt.device ≠ this.id)
    (ha : rt.setStatus this.id ≠ cudaSuccess) :
    (this.call_in_context do_work rt).result =
      (if rt.setStatus rt.device = cudaSuccess
        then .error (.exception_ptr (.cudaError (rt.setStatus this.id)))
        else .error (.cudaError (rt.setStatus rt.device))) ∧
    (this.call_in_context do_work rt).rt.device = rt.device ∧
    (this.call_in_context do_work rt).trace =
      [.cudaGetDevice cudaSuccess, .cudaSetDevice this.id (rt.setStatus this.id),
        .cudaSetDevice rt.device (rt.setStatus rt.device)] := by
  by_cases hr : rt.setStatus rt.device = cudaSuccess <;>
    simp [Device.call_in_context, Device.current_device_id, NODE_CUDA_TRY, cudaGetDevice, hg,
      Device.try_block, Device.change_device, hd, cudaSetDevice, ha, hr]

theorem call_in_context_activated (this : Device) (do_work : Work) (rt : Runtime)
    (hg : rt.getStatus = cudaSuccess) (hd : rt.device ≠ this.id)
    (ha : rt.setStatus this.id = cudaSuccess) :
    (this.call_in_context do_work rt).result =
      (if (do_work { rt with device := this.id }).2.setStatus rt.device = cudaSuccess
        then (match (do_work { rt with device := this.id }).1 with
          | .error e => .error (.exception_ptr e)
          | .ok u => .ok u)
        else .error (.cudaError
          ((do_work { rt with device := this.id }).2.setStatus rt.device))) ∧
    (this.call_in_context do_work rt).rt =
      (cudaSetDevice rt.device (do_work { rt with device := this.id }).2).2 ∧
    (this.call_in_context do_work rt).trace =
      [.cudaGetDevice cudaSuccess, .cudaSetDevice this.id cudaSuccess, .do_work this.id,
        .cudaSetDevice rt.device
          ((do_work { rt with device := this.id }).2.setStatus rt.device)] := by
  obtain ⟨dev, gs, ss⟩ := rt
  simp only at hg hd ha
  subst hg
  by_cases hr : (do_work ⟨this.id, cudaSuccess, ss⟩).2.setStatus dev = cudaSuccess <;>
    cases hw : (do_work ⟨this.id, cudaSuccess, ss⟩).1 <;>
    simp [Device.call_in_context, Device.current_device_id, NODE_CUDA_TRY, cudaGetDevice,
      Device.try_block, Device.change_device, hd, cudaSetDevice, ha, hr, hw]

/-- A `std::exception_ptr` object is never the exception it refers to. -/
theorem exception_ptr_ne (e : Thrown) : Thrown.exception_ptr e ≠ e := by
  induction e with
  | cudaError st => simp
  | exception tag => simp
  | exception_ptr e ih => intro h; exact ih (Thrown.exception_ptr.inj h)

/-- Whenever the bracketed work raises `e` and the restoring call, if one is
issued, is accepted, the `catch` handler ends in
`throw std::current_exception();`: what leaves the guard is a
`std::exception_ptr` referring to `e`. -/
theorem call_in_context_rethrows_exception_ptr (this : Device) (do_work : Work) (rt : Runtime)
    (e : Thrown)
    (hok : ∀ ev ∈ (this.call_in_context do_work rt).trace, ev.succeeded = true)
    (hw : (do_work (if rt.device = this.id then rt else { rt with device := this.id })).1 =
      .error e) :
    (this.call_in_context do_work rt).result = .error (.exception_ptr e) := by
  by_cases hg : rt.getStatus = cudaSuccess
  · by_cases hd : rt.device = this.id
    · rw [if_pos hd] at hw
      rw [(call_in_context_already_active this do_work rt hg hd).1, hw]
    · rw [if_neg hd] at hw
      by_cases ha : rt.setStatus this.id = cudaSuccess
      · have h := call_in_context_activated this do_work rt hg hd ha
        have h4 := hok (.cudaSetDevice rt.device
          ((do_work { rt with device := this.id }).2.setStatus rt.device)) (by simp [h.2.2])
        simp only [Event.succeeded, decide_eq_true_eq] at h4
        rw [h.1, if_pos h4, hw]
      · have h := call_in_context_activation_rejected this do_work rt hg hd ha
        have h2 := hok (.cudaSetDevice this.id (rt.setStatus this.id)) (by simp [h.2.2])
        simp only [Event.succeeded, decide_eq_true_eq] at h2
        exact absurd h2 ha
  · have h := call_in_context_query_rejected this do_work rt hg
    have h1 := hok (.cudaGetDevice rt.getStatus) (by simp [h.2.2])
    simp only [Event.succeeded, decide_eq_true_eq] at h1
    exact absurd h1 hg

/-! ## The guard: restoration, fast path, errors -/

/-- C1. Restoration invariant: for distinct device ids `A` and `B`, any work and
a runtime whose register holds `A`, if every `cudaSetDevice` call the guard
issues on device `B` is accepted, the register holds `A` when `call_in_context`
is over, however the work ended and whatever it did to the register. -/
theorem call_in_context_restores_previous_device (A B : Int) (do_work : Work) (rt : Runtime)
    (hAB : A ≠ B) (hA : rt.device = A)
    (hok : ∀ ev ∈ ((Device.mk B).call_in_context do_work rt).trace,
      ev.isSetDevice = true → ev.succeeded = true) :
    ((Device.mk B).call_in_context do_work rt).rt.device = A := by
  subst hA
  have hd : rt.device ≠ (Device.mk B).id := by simpa [Device.id] using hAB
  by_cases hg : rt.getStatus = cudaSuccess
  · by_cases ha : rt.setStatus (Device.mk B).id = cudaSuccess
    · have h := call_in_context_activated (Device.mk B) do_work rt hg hd ha
      have h4 := hok (.cudaSetDevice rt.device
        ((do_work { rt with device := (Device.mk B).id }).2.setStatus rt.device))
        (by simp [h.2.2]) rfl
      simp only [Event.succeeded, decide_eq_true_eq] at h4
      rw [h.2.1]
      simp [cudaSetDevice, h4]
    · exact (call_in_context_activation_rejected (Device.mk B) do_work rt hg hd ha).2.1
  · rw [(call_in_context_query_rejected (Device.mk B) do_work rt hg).2.1]

/-- C1 at an input: register on device 0, guard for device 1, work that raises
after moving the register to device 5. -/
theorem call_in_context_restores_previous_device_witness :
    ((Device.mk 1).call_in_context
      (fun rt => (.error (.exception 7), (cudaSetDevice 5 rt).2))
      (Runtime.accepting 0)).rt.device = 0 :=
  call_in_context_restores_previous_device 0 1
    (fun rt => (.error (.exception 7), (cudaSetDevice 5 rt).2)) (Runtime.accepting 0)
    (by decide) rfl (by decide)

/-- C2. No-op fast path: when the register read at entry holds the device's id,
the guard issues no `cudaSetDevice` call at all, whether the work returns or
raises. -/
theorem call_in_context_fast_path (this : Device) (do_work : Work) (rt : Runtime)
    (hd : rt.device = this.id) :
    setDeviceCalls (this.call_in_context do_work rt).trace = 0 := by
  by_cases hg : rt.getStatus = cudaSuccess
  · rw [(call_in_context_already_active this do_work rt hg hd).2.2]
    simp [setDeviceCalls, Event.isSetDevice]
  · rw [(call_in_context_query_rejected this do_work rt hg).2.2]
    simp [setDeviceCalls, Event.isSetDevice]

/-- C2 at an input: device 3 already active, work that raises. -/
theorem call_in_context_fast_path_witness :
    setDeviceCalls ((Device.mk 3).call_in_context (Work.raising (.exception 7))
      (Runtime.accepting 3)).trace = 0 :=
  call_in_context_fast_path (Device.mk 3) (Work.raising (.exception 7)) (Runtime.accepting 3) rfl

/-- C3, the code at a failing input: register on device 0, guard for device 1,
every runtime call accepted, work raising the exception `7`.  What leaves the
guard is a `std::exception_ptr` referring to that exception, which is another
object than the exception itself. -/
theorem call_in_context_rethrow_is_exception_ptr :
    ((Device.mk 1).call_in_context (Work.raising (.exception 7))
      (Runtime.accepting 0)).result = .error (.exception_ptr (.exception 7)) ∧
    ((Device.mk 1).call_in_context (Work.raising (.exception 7))
      (Runtime.accepting 0)).result ≠ .error (.exception 7) ∧
    ((Device.mk 1).call_in_context (Work.raising (.exception 7))
      (Runtime.accepting 0)).trace =
        [.cudaGetDevice 0, .cudaSetDevice 1 0, .do_work 1, .cudaSetDevice 0 0] := by
  have h : ((Device.mk 1).call_in_context (Work.raising (.exception 7))
      (Runtime.accepting 0)).result = .error (.exception_ptr (.exception 7)) := rfl
  refine ⟨h, ?_, by decide⟩
  rw [h]
  simp

/-- C4. A failed restore is not swallowed: when the register saved at entry
differs from the device's id and the guard's restoring call
`cudaSetDevice(savedId)` is rejected with status `st`, `call_in_context` ends by
raising the error of that rejection, whether the work returned or raised and
whether or not the activation had been accepted. -/
theorem call_in_context_surfaces_failed_restore (this : Device) (do_work : Work)
    (rt : Runtime) (st : cudaError_t)
    (hg : rt.getStatus = cudaSuccess) (hd : rt.device ≠ this.id)
    (hev : Event.cudaSetDevice rt.device st ∈ (this.call_in_context do_work rt).trace)
    (hst : st ≠ cudaSuccess) :
    (this.call_in_context do_work rt).result = .error (.cudaError st) := by
  by_cases ha : rt.setStatus this.id = cudaSuccess
  · have h := call_in_context_activated this do_work rt hg hd ha
    rw [h.2.2] at hev
    simp [hd] at hev
    rw [h.1, ← hev, if_neg hst]
  · have h := call_in_context_activation_rejected this do_work rt hg hd ha
    rw [h.2.2] at hev
    simp [hd] at hev
    rw [h.1, ← hev, if_neg hst]

/-- C4 at inputs: register on device 0, guard for device 1; once with work that
returns and once with work that raises, the runtime rejecting every activation
with status 46 afterwards. -/
theorem call_in_context_surfaces_failed_restore_witness :
    ((Device.mk 1).call_in_context (Work.breaking 46) (Runtime.accepting 0)).result =
      .error (.cudaError 46) ∧
    ((Device.mk 1).call_in_context (Work.raisingAndBreaking (.exception 7) 46)
      (Runtime.accepting 0)).result = .error (.cudaError 46) :=
  ⟨call_in_context_surfaces_failed_restore (Device.mk 1) (Work.breaking 46)
      (Runtime.accepting 0) 46 rfl (by decide) (by decide) (by decide),
    call_in_context_surfaces_failed_restore (Device.mk 1)
      (Work.raisingAndBreaking (.exception 7) 46) (Runtime.accepting 0) 46 rfl (by decide)
      (by decide) (by decide)⟩

/-- C5 as stated fails: device 0 is already active, the work makes device 1 the
active one and returns.  The guard issues one runtime call, the current-device
query, which is accepted, and the register holds 1 at exit although it held 0 at
entry. -/
theorem call_in_context_already_active_register_changes :
    (Runtime.accepting 0).device = 0 ∧
    (∀ ev ∈ ((Device.mk 0).call_in_context (Work.switching 1) (Runtime.accepting 0)).trace,
      ev.succeeded = true) ∧
    ((Device.mk 0).call_in_context (Work.switching 1) (Runtime.accepting 0)).result = .ok () ∧
    ((Device.mk 0).call_in_context (Work.switching 1) (Runtime.accepting 0)).rt.device = 1 ∧
    ((Device.mk 0).call_in_context (Work.switching 1) (Runtime.accepting 0)).rt.device ≠
      (Runtime.accepting 0).device := by
  refine ⟨rfl, by decide, rfl, by decide, by decide⟩

/-- C5, amended. If every runtime call the guard makes is accepted, then: when
the register at entry differs from the device's id, the register at exit equals
the register at entry; when it equals the device's id, the guard issues no
activation or restoration call and the register at exit is the value in which
the work left it. -/
theorem call_in_context_exit_register (this : Device) (do_work : Work) (rt : Runtime)
    (hok : ∀ ev ∈ (this.call_in_context do_work rt).trace, ev.succeeded = true) :
    (rt.device ≠ this.id → (this.call_in_context do_work rt).rt.device = rt.device) ∧
    (rt.device = this.id →
      setDeviceCalls (this.call_in_context do_work rt).trace = 0 ∧
      (this.call_in_context do_work rt).rt.device = (do_work rt).2.device) := by
  by_cases hg : rt.getStatus = cudaSuccess
  · refine ⟨fun hd => ?_, fun hd => ?_⟩
    · by_cases ha : rt.setStatus this.id = cudaSuccess
      · have h := call_in_context_activated this do_work rt hg hd ha
        have h4 := hok (.cudaSetDevice rt.device
          ((do_work { rt with device := this.id }).2.setStatus rt.device)) (by simp [h.2.2])
        simp only [Event.succeeded, decide_eq_true_eq] at h4
        rw [h.2.1]
        simp [cudaSetDevice, h4]
      · exact (call_in_context_activation_rejected this do_work rt hg hd ha).2.1
    · have h := call_in_context_already_active this do_work rt hg hd
      refine ⟨?_, by rw [h.2.1]⟩
      rw [h.2.2]
      simp [setDeviceCalls, Event.isSetDevice]
  · have h := call_in_context_query_rejected this do_work rt hg
    have h1 := hok (.cudaGetDevice rt.getStatus) (by simp [h.2.2])
    simp only [Event.succeeded, decide_eq_true_eq] at h1
    exact absurd h1 hg

/-- C5, amended, at inputs: with device 0 active, a guard for device 1 around
work that moves the register to device 5 leaves the register on 0; a guard for
device 0 around the same work issues no `cudaSetDevice` call and leaves the
register on 5. -/
theorem call_in_context_exit_register_witness :
    ((Device.mk 1).call_in_context (Work.switching 5) (Runtime.accepting 0)).rt.device =
      (Runtime.accepting 0).device ∧
    setDeviceCalls
      ((Device.mk 0).call_in_context (Work.switching 5) (Runtime.accepting 0)).trace = 0 ∧
    ((Device.mk 0).call_in_context (Work.switching 5) (Runtime.accepting 0)).rt.device =
      (Work.switching 5 (Runtime.accepting 0)).2.device :=
  ⟨(call_in_context_exit_register (Device.mk 1) (Work.switching 5) (Runtime.accepting 0)
      (by decide)).1 (by decide),
    (call_in_context_exit_register (Device.mk 0) (Work.switching 5) (Runtime.accepting 0)
      (by decide)).2 rfl⟩

/-- C6. Work runs on the designated device: if the current-device query is
accepted and, when the register differs from the device's id, the activating
call is accepted too, then the work is started exactly once, with the register
holding the device's id; the activation call, when there is one, comes before
the work and the restoration call, when there is one, after it. -/
theorem call_in_context_runs_work_on_device (this : Device) (do_work : Work) (rt : Runtime)
    (hg : rt.getStatus = cudaSuccess)
    (ha : rt.device ≠ this.id → rt.setStatus this.id = cudaSuccess) :
    workRuns (this.call_in_context do_work rt).trace = 1 ∧
    (rt.device = this.id →
      (this.call_in_context do_work rt).trace =
        [.cudaGetDevice cudaSuccess, .do_work this.id]) ∧
    (rt.device ≠ this.id →
      (this.call_in_context do_work rt).trace =
        [.cudaGetDevice cudaSuccess, .cudaSetDevice this.id cudaSuccess, .do_work this.id,
          .cudaSetDevice rt.device
            ((do_work { rt with device := this.id }).2.setStatus rt.device)]) := by
  by_cases hd : rt.device = this.id
  · have h := (call_in_context_already_active this do_work rt hg hd).2.2
    refine ⟨?_, fun _ => h, fun hne => absurd hd hne⟩
    rw [h]
    simp [workRuns, Event.isWork]
  · have h := (call_in_context_activated this do_work rt hg hd (ha hd)).2.2
    refine ⟨?_, fun he => absurd he hd, fun _ => h⟩
    rw [h]
    simp [workRuns, Event.isWork]

/-- C6 at an input: register on device 0, guard for device 1, work that
raises. -/
theorem call_in_context_runs_work_on_device_witness :
    workRuns ((Device.mk 1).call_in_context (Work.raising (.exception 7))
      (Runtime.accepting 0)).trace = 1 ∧
    ((Device.mk 1).call_in_context (Work.raising (.exception 7))
      (Runtime.accepting 0)).trace =
        [.cudaGetDevice cudaSuccess, .cudaSetDevice 1 cudaSuccess, .do_work 1,
          .cudaSetDevice 0 cudaSuccess] :=
  ⟨(call_in_context_runs_work_on_device (Device.mk 1) (Work.raising (.exception 7))
      (Runtime.accepting 0) rfl (fun _ => rfl)).1,
    (call_in_context_runs_work_on_device (Device.mk 1) (Work.raising (.exception 7))
      (Runtime.accepting 0) rfl (fun _ => rfl)).2.2 (by decide)⟩

/-- C7 as stated fails: register on device 0, guard for device 1, the runtime
rejecting the activation of device 1 with status 101 and the activation of any
other device with status 46.  The work is not run, and the error that leaves the
guard is the one of the rejected restoring call, status 46, not the activation
error, status 101. -/
theorem call_in_context_activation_error_replaced :
    (Runtime.rejecting 0 (fun id => if id = 1 then 101 else 46)).getStatus = cudaSuccess ∧
    (Runtime.rejecting 0 (fun id => if id = 1 then 101 else 46)).device ≠ (Device.mk 1).id ∧
    (Runtime.rejecting 0 (fun id => if id = 1 then 101 else 46)).setStatus (Device.mk 1).id
      = 101 ∧
    ((Device.mk 1).call_in_context (Work.switching 5)
      (Runtime.rejecting 0 (fun id => if id = 1 then 101 else 46))).trace =
        [.cudaGetDevice 0, .cudaSetDevice 1 101, .cudaSetDevice 0 46] ∧
    ((Device.mk 1).call_in_context (Work.switching 5)
      (Runtime.rejecting 0 (fun id => if id = 1 then 101 else 46))).result =
        .error (.cudaError 46) ∧
    ((Device.mk 1).call_in_context (Work.switching 5)
      (Runtime.rejecting 0 (fun id => if id = 1 then 101 else 46))).result ≠
        .error (.cudaError 101) := by
  have h : ((Device.mk 1).call_in_context (Work.switching 5)
      (Runtime.rejecting 0 (fun id => if id = 1 then 101 else 46))).result =
        .error (.cudaError 46) := rfl
  refine ⟨rfl, by decide, rfl, by decide, h, ?_⟩
  rw [h]
  simp

/-- C7, amended. When the register saved at entry differs from the device's id
and the runtime rejects the activating call, the work is never run, the guard
issues the restoring call `cudaSetDevice(savedId)` next and nothing after it,
and `call_in_context` does not return normally; when the runtime rejects the
restoring call as well, the error raised is the one of that rejected restore.
Which error object is raised when the restoring call is accepted is left out. -/
theorem call_in_context_activation_failure (this : Device) (do_work : Work) (rt : Runtime)
    (hg : rt.getStatus = cudaSuccess) (hd : rt.device ≠ this.id)
    (ha : rt.setStatus this.id ≠ cudaSuccess) :
    workRuns (this.call_in_context do_work rt).trace = 0 ∧
    (this.call_in_context do_work rt).trace =
      [.cudaGetDevice cudaSuccess, .cudaSetDevice this.id (rt.setStatus this.id),
        .cudaSetDevice rt.device (rt.setStatus rt.device)] ∧
    (∃ e, (this.call_in_context do_work rt).result = .error e) ∧
    (rt.setStatus rt.device ≠ cudaSuccess →
      (this.call_in_context do_work rt).result =
        .error (.cudaError (rt.setStatus rt.device))) := by
  have h := call_in_context_activation_rejected this do_work rt hg hd ha
  refine ⟨?_, h.2.2, ?_, fun hr => by rw [h.1, if_neg hr]⟩
  · rw [h.2.2]
    simp [workRuns, Event.isWork]
  · by_cases hr : rt.setStatus rt.device = cudaSuccess
    · exact ⟨_, by rw [h.1, if_pos hr]⟩
    · exact ⟨_, by rw [h.1, if_neg hr]⟩

/-- C7, amended, at an input: register on device 0, guard for device 1, the
runtime rejecting the activation of device 1 with status 101 and the activation
of any other device with status 46. -/
theorem call_in_context_activation_failure_witness :
    workRuns ((Device.mk 1).call_in_context (Work.switching 5)
      (Runtime.rejecting 0 (fun id => if id = 1 then 101 else 46))).trace = 0 ∧
    ((Device.mk 1).call_in_context (Work.switching 5)
      (Runtime.rejecting 0 (fun id => if id = 1 then 101 else 46))).result =
        .error (.cudaError
          ((Runtime.rejecting 0 (fun id => if id = 1 then 101 else 46)).setStatus
            (Runtime.rejecting 0 (fun id => if id = 1 then 101 else 46)).device)) :=
  ⟨(call_in_context_activation_failure (Device.mk 1) (Work.switching 5)
      (Runtime.rejecting 0 (fun id => if id = 1 then 101 else 46)) rfl (by decide)
      (by decide)).1,
    (call_in_context_activation_failure (Device.mk 1) (Work.switching 5)
      (Runtime.rejecting 0 (fun id => if id = 1 then 101 else 46)) rfl (by decide)
      (by decide)).2.2.2 (by decide)⟩

/-- C8. Query failure: when the current-device query at entry is rejected,
`call_in_context` ends by raising the error of that query, the query is the only
call it issued (no `cudaSetDevice` call, no run of the work), and the runtime,
the register included, is as it was. -/
theorem call_in_context_query_failure (this : Device) (do_work : Work) (rt : Runtime)
    (hg : rt.getStatus ≠ cudaSuccess) :
    (this.call_in_context do_work rt).result = .error (.cudaError rt.getStatus) ∧
    (this.call_in_context do_work rt).trace = [.cudaGetDevice rt.getStatus] ∧
    setDeviceCalls (this.call_in_context do_work rt).trace = 0 ∧
    workRuns (this.call_in_context do_work rt).trace = 0 ∧
    (this.call_in_context do_work rt).rt.device = rt.device := by
  have h := call_in_context_query_rejected this do_work rt hg
  refine ⟨h.1, h.2.2, ?_, ?_, by rw [h.2.1]⟩
  · rw [h.2.2]
    simp [setDeviceCalls, Event.isSetDevice]
  · rw [h.2.2]
    simp [workRuns, Event.isWork]

/-- C8 at an input: the query is rejected with status 3 while device 0 is
active, guard for device 1. -/
theorem call_in_context_query_failure_witness :
    ((Device.mk 1).call_in_context (Work.switching 5)
      { device := 0, getStatus := 3, setStatus := fun _ => cudaSuccess }).result =
        .error (.cudaError 3) :=
  (call_in_context_query_failure (Device.mk 1) (Work.switching 5)
    { device := 0, getStatus := 3, setStatus := fun _ => cudaSuccess } (by decide)).1

/-! ## `force_atlas2`: the positions address and the options -/

/-- The address `force_atlas2` hands to the layout algorithm for a memory view
at address `p` with `byteOffset` `k`: the offset is added to a `float*`, so it
counts floats of four bytes. -/
theorem force_atlas2_positions_address (h : Host) (p k : ℕ) (hb : p + 4 * k < 2 ^ 63) :
    (force_atlas2 h (viewOptions (.number p) (.number k))).pos = p + 4 * k ∧
    (force_atlas2 h (viewOptions (.number p) (.number k))).x_start = p + 4 * k ∧
    (force_atlas2 h (viewOptions (.number p) (.bigint k))).pos = p + 4 * k ∧
    (force_atlas2 h (viewOptions (.number p) (.bigint k))).x_start = p + 4 * k := by
  have hp : ((p : Int) < 9223372036854775808) := by omega
  have hk : ((k : Int) < 9223372036854775808) := by omega
  have hp0 : (-9223372036854775808 : Int) ≤ (p : Int) := by omega
  have hk0 : (-9223372036854775808 : Int) ≤ (k : Int) := by omega
  simp [force_atlas2, viewOptions, decode_positions, Value.Has, Value.Get, Value.IsObject,
    is_device_memory_wrapper, is_device_memory, Value.IsNumber, read_byteOffset,
    get_device_memory_ptr, Value.ToObject, Value.ToNumber, Int64Value, to_uint64,
    float_ptr_add, sizeof_float, Uint64Value, Value.IsBigInt, Value.bigintValue]
  omega

/-- Without a `byteOffset` property, or with one that is neither a number nor a
big integer, the address handed to the layout algorithm is the buffer's. -/
theorem force_atlas2_positions_address_no_offset (h : Host) (p : ℕ) (hb : p < 2 ^ 63) :
    (force_atlas2 h (viewOptionsNoOffset (.number p))).pos = p ∧
    (force_atlas2 h (viewOptionsNoOffset (.number p))).x_start = p ∧
    (force_atlas2 h (viewOptions (.number p) (.string "8"))).pos = p ∧
    (force_atlas2 h (viewOptions (.number p) (.string "8"))).x_start = p := by
  have hp : ((p : Int) < 9223372036854775808) := by omega
  have hp0 : (-9223372036854775808 : Int) ≤ (p : Int) := by omega
  simp [force_atlas2, viewOptions, viewOptionsNoOffset, decode_positions, Value.Has, Value.Get,
    Value.IsObject, is_device_memory_wrapper, is_device_memory, Value.IsNumber,
    read_byteOffset, get_device_memory_ptr, Value.ToObject, Value.ToNumber, Int64Value,
    to_uint64, float_ptr_add, sizeof_float, Uint64Value, Value.IsBigInt, Value.bigintValue]
  omega

/-- C9, the code at a failing input: for the options
`{ positions: { buffer: { ptr: 1000 }, byteOffset: 8 } }` the address passed as
the positions output and as `x_positions` is `1032`, that is `1000 + 4 * 8`,
while eight bytes past the buffer's address is `1008`. -/
theorem force_atlas2_byteOffset_counts_floats (h : Host) :
    (force_atlas2 h (viewOptions (.number 1000) (.number 8))).pos = 1032 ∧
    (force_atlas2 h (viewOptions (.number 1000) (.number 8))).x_start = 1032 ∧
    (force_atlas2 h (viewOptions (.number 1000) (.number 8))).pos ≠ 1000 + 8 := by
  simp [force_atlas2, viewOptions, decode_positions, Value.Has, Value.Get, Value.IsObject,
    is_device_memory_wrapper, is_device_memory, Value.IsNumber, read_byteOffset,
    get_device_memory_ptr, Value.ToObject, Value.ToNumber, Int64Value, to_uint64,
    float_ptr_add, sizeof_float]

/-- `Get` on an object is the first property of that name, `undefined` when there
is none. -/
theorem Get_object (props : List (String × Value)) (key : String) :
    Value.Get (.object props) key = (props.lookup key).getD .undefined := by
  induction props with
  | nil => rfl
  | cons kv rest ih =>
    obtain ⟨k, v⟩ := kv
    simp only [Value.Get] at ih ⊢
    by_cases hk : k = key
    · subst hk
      simp [List.lookup, List.find?]
    · have h1 : (k == key) = false := by simpa using hk
      have h2 : (key == k) = false := by simpa using fun h => hk h.symm
      simp only [List.lookup, List.find?, h1, h2]
      exact ih

/-- `get_bool` on an option decodes it as described. -/
theorem get_bool_decoded (h : Host) (hf : h.Faithful) (props : List (String × Value))
    (name : String) (default_val : Bool) :
    BoolOptionDecoded props name default_val
      (get_bool h (Value.Get (.object props) name) default_val) := by
  rw [Get_object]
  unfold BoolOptionDecoded
  cases props.lookup name with
  | none => simp [get_bool, Value.IsBoolean]
  | some v => cases v <;> simp [get_bool, Value.IsBoolean, hf.toBool_boolean]

/-- `get_int` on an option decodes it as described. -/
theorem get_int_decoded (h : Host) (hf : h.Faithful) (props : List (String × Value))
    (name : String) (default_val : Int) :
    IntOptionDecoded h props name default_val
      (get_int h (Value.Get (.object props) name) default_val) := by
  rw [Get_object]
  unfold IntOptionDecoded
  cases props.lookup name with
  | none => simp [get_int, Value.IsNumber]
  | some v =>
    cases v <;> simp [get_int, Value.IsNumber]
    exact hf.toInt_number _

/-- `get_float` on an option decodes it as described. -/
theorem get_float_decoded (h : Host) (hf : h.Faithful) (props : List (String × Value))
    (name : String) (default_val : ℚ) :
    FloatOptionDecoded h props name default_val
      (get_float h (Value.Get (.object props) name) default_val) := by
  rw [Get_object]
  unfold FloatOptionDecoded
  cases props.lookup name with
  | none => simp [get_float, Value.IsNumber]
  | some v =>
    cases v <;> simp [get_float, Value.IsNumber]
    exact hf.toFloat_number _

/-- C10 as stated fails: `numIterations: 2.5` is a number, the expected type,
and whatever `operator int()` does, the decoded iteration count is an integer
and so is not the option's own value. -/
theorem force_atlas2_numIterations_not_own_value :
    Value.IsNumber (.number (5 / 2)) = true ∧
    ¬ ∃ h : Host,
      (((force_atlas2 h (.object [("numIterations", .number (5 / 2))])).max_iter : Int) : ℚ)
        = 5 / 2 := by
  refine ⟨rfl, ?_⟩
  rintro ⟨h, hh⟩
  generalize (force_atlas2 h (.object [("numIterations", .number (5 / 2))])).max_iter = n at hh
  have h2 : ((2 * n : Int) : ℚ) = ((5 : Int) : ℚ) := by
    push_cast
    rw [hh]
    norm_num
  have h3 : 2 * n = 5 := by exact_mod_cast h2
  omega

/-- C10, amended. For every options object, provided the conversion operators
return a value the C++ type holds exactly as it is: each boolean option
(`outboundAttraction`, `linLogMode`, `preventOverlap`, `strongGravityMode`,
`verbose`) decodes to its own value when it is present and a boolean; each number
option decodes, when it is present and a number, to that number converted to the
C++ type (`int` for `numIterations`, `float` for `edgeWeightInfluence`,
`jitterTolerance`, `barnesHutTheta`, `scalingRatio`, `gravity`), which is the
option's own value whenever the C++ type holds it exactly; an option that is
missing or has another type decodes to its default:
1, true, false, false, 1.0, 1.0, 0.5, 2.0, false, 1.0, false. -/
theorem force_atlas2_option_decoding (h : Host) (hf : h.Faithful)
    (props : List (String × Value)) :
    IntOptionDecoded h props "numIterations" 1
      (force_atlas2 h (.object props)).max_iter ∧
    BoolOptionDecoded props "outboundAttraction" true
      (force_atlas2 h (.object props)).outbound_attraction ∧
    BoolOptionDecoded props "linLogMode" false
      (force_atlas2 h (.object props)).lin_log_mode ∧
    BoolOptionDecoded props "preventOverlap" false
      (force_atlas2 h (.object props)).prevent_overlapping ∧
    FloatOptionDecoded h props "edgeWeightInfluence" 1
      (force_atlas2 h (.object props)).edge_weight_influence ∧
    FloatOptionDecoded h props "jitterTolerance" 1
      (force_atlas2 h (.object props)).jitter_tolerance ∧
    FloatOptionDecoded h props "barnesHutTheta" (1 / 2)
      (force_atlas2 h (.object props)).barnes_hut_theta ∧
    FloatOptionDecoded h props "scalingRatio" 2
      (force_atlas2 h (.object props)).scaling_ratio ∧
    BoolOptionDecoded props "strongGravityMode" false
      (force_atlas2 h (.object props)).strong_gravity_mode ∧
    FloatOptionDecoded h props "gravity" 1
      (force_atlas2 h (.object props)).gravity ∧
    BoolOptionDecoded props "verbose" false
      (force_atlas2 h (.object props)).verbose :=
  ⟨get_int_decoded h hf props _ _, get_bool_decoded h hf props _ _,
    get_bool_decoded h hf props _ _, get_bool_decoded h hf props _ _,
    get_float_decoded h hf props _ _, get_float_decoded h hf props _ _,
    get_float_decoded h hf props _ _, get_float_decoded h hf props _ _,
    get_bool_decoded h hf props _ _, get_float_decoded h hf props _ _,
    get_bool_decoded h hf props _ _⟩

/-- C10, amended, at an input: the options
`{ numIterations: 500, verbose: true, barnesHutTheta: 0.25, gravity: "strong" }`
with conversion operators that keep what the C++ type holds exactly. -/
theorem force_atlas2_option_decoding_witness :
    Host.exact.Faithful ∧
    IntOptionDecoded Host.exact sampleOptions "numIterations" 1
      (force_atlas2 Host.exact (.object sampleOptions)).max_iter ∧
    BoolOptionDecoded sampleOptions "outboundAttraction" true
      (force_atlas2 Host.exact (.object sampleOptions)).outbound_attraction ∧
    BoolOptionDecoded sampleOptions "linLogMode" false
      (force_atlas2 Host.exact (.object sampleOptions)).lin_log_mode ∧
    BoolOptionDecoded sampleOptions "preventOverlap" false
      (force_atlas2 Host.exact (.object sampleOptions)).prevent_overlapping ∧
    FloatOptionDecoded Host.exact sampleOptions "edgeWeightInfluence" 1
      (force_atlas2 Host.exact (.object sampleOptions)).edge_weight_influence ∧
    FloatOptionDecoded Host.exact sampleOptions "jitterTolerance" 1
      (force_atlas2 Host.exact (.object sampleOptions)).jitter_tolerance ∧
    FloatOptionDecoded Host.exact sampleOptions "barnesHutTheta" (1 / 2)
      (force_atlas2 Host.exact (.object sampleOptions)).barnes_hut_theta ∧
    FloatOptionDecoded Host.exact sampleOptions "scalingRatio" 2
      (force_atlas2 Host.exact (.object sampleOptions)).scaling_ratio ∧
    BoolOptionDecoded sampleOptions "strongGravityMode" false
      (force_atlas2 Host.exact (.object sampleOptions)).strong_gravity_mode ∧
    FloatOptionDecoded Host.exact sampleOptions "gravity" 1
      (force_atlas2 Host.exact (.object sampleOptions)).gravity ∧
    BoolOptionDecoded sampleOptions "verbose" false
      (force_atlas2 Host.exact (.object sampleOptions)).verbose :=
  have hf : Host.exact.Faithful :=
    ⟨fun _ => rfl,
      fun x hx => by
        show ((Int.tdiv x.num x.den : Int) : ℚ) = x
        rw [hx.1, Nat.cast_one, Int.tdiv_one]
        exact Rat.coe_int_num_of_den_eq_one hx.1,
      fun _ _ => rfl⟩
  ⟨hf, force_atlas2_option_decoding Host.exact hf sampleOptions⟩

/-- The decoded values for the sample options: `numIterations`, `verbose` and
`barnesHutTheta` are the options' own values, `gravity`, a string, and the
missing `scalingRatio` are the defaults. -/
theorem force_atlas2_sampleOptions :
    (force_atlas2 Host.exact (.object sampleOptions)).max_iter = 500 ∧
    (force_atlas2 Host.exact (.object sampleOptions)).verbose = true ∧
    (force_atlas2 Host.exact (.object sampleOptions)).barnes_hut_theta = 1 / 4 ∧
    (force_atlas2 Host.exact (.object sampleOptions)).gravity = 1 ∧
    (force_atlas2 Host.exact (.object sampleOptions)).scaling_ratio = 2 := by
  simp [force_atlas2, sampleOptions, Host.exact, get_int, get_bool, get_float, Value.Get,
    Value.IsNumber, Value.IsBoolean]

end nv
